import Mathlib

/-!
Verification of the diet-formulation core of this repository against its
specification.  The embedding below follows the three source files:

* `util.py`    — requirement-table construction and herd grouping helpers,
* `run_diet_opt.py` — the ration model builder, validation, and result
  extraction of `optimize_diet` / `group_and_optimize`,
* `main.py`    — the older duplicated `optimize` / `group_and_opt` path,
  whose result extraction differs from `run_diet_opt.py` in the feed-table
  threshold and in the handling of division by zero.

Numbers are embedded as rationals (`ℚ`); the decimal literals of the source
are exact decimal fractions, so nothing is lost.  Python functions that can
raise are embedded with an `Except` codomain; functions with no raise path
always return `Except.ok`.  Tables indexed by ingredient name are embedded as
association lists; table columns are record fields (the source's
missing-column checks are about malformed CSV input, which the record
representation makes unrepresentable, and no claim below concerns them).
The final `DataFrame.round` display rounding of the source is not part of the
extracted tables modelled here; no claim concerns the rounding step.
-/

namespace DietOpt

/-- Error kinds of the specification's error taxonomy (spec section 7).  The
source raises `ValueError` / `RuntimeError` at each corresponding site; the
constructor records which spec kind the raise site falls under. -/
inductive DietError where
  | invalidInput : String → DietError
  | invalidConfiguration : String → DietError
  | missingIngredient : String → DietError
  | solverFailure : String → DietError
deriving DecidableEq

/-- Boolean test that an embedded Python call returned normally (did not
raise). -/
def succeeds {ε α : Type} : Except ε α → Bool
  | Except.ok _ => true
  | Except.error _ => false

/-- ASCII whitespace test used by the embedding of Python's `str.strip()`. -/
def isWS (c : Char) : Bool := c == ' ' || c == '\t' || c == '\n' || c == '\r'

/-- Embedding of Python's `str.strip()` (the option strings the source strips
are ASCII). -/
def pyStrip (s : String) : String :=
  ⟨((s.data.dropWhile isWS).reverse.dropWhile isWS).reverse⟩

/-- Embedding of Python's `str.upper()` for ASCII option strings. -/
def pyUpper (s : String) : String := ⟨s.data.map Char.toUpper⟩

/-- Embedding of Python's `str.lower()` for ASCII option strings. -/
def pyLower (s : String) : String := ⟨s.data.map Char.toLower⟩

/-- Nutrient requirement table: one `(min, max)` pair per nutrient row, in
absolute kg or Mcal per cow per day, as produced by
`Utility.construct_nutritional_req_table`. -/
structure ReqTable where
  DM : ℚ × ℚ
  NEL : ℚ × ℚ
  CP : ℚ × ℚ
  NDF : ℚ × ℚ
  STARCH : ℚ × ℚ
  FAT : ℚ × ℚ
deriving DecidableEq

/-- Row lookup in a requirement table by nutrient name, matching
`nutrient_req_table.loc[n, ...]` for the names the source uses. -/
def reqOf (r : ReqTable) : String → ℚ × ℚ
  | "DM" => r.DM
  | "NEL" => r.NEL
  | "CP" => r.CP
  | "NDF" => r.NDF
  | "STARCH" => r.STARCH
  | "FAT" => r.FAT
  | _ => (0, 0)

/-- Embedding of `Utility.construct_nutritional_req_table` (`util.py` lines
40-90).  The source body builds the table unconditionally and contains no
raise path; the `Except` codomain records the absence of any failure. -/
def construct_nutritional_req_table (DM_baseline NEL_baseline DM_vary NEL_vary : ℚ) :
    Except DietError ReqTable :=
  Except.ok
    { DM := (DM_baseline * (1 - DM_vary), DM_baseline * (1 + DM_vary))
      NEL := (DM_baseline * NEL_baseline * (1 - NEL_vary),
        DM_baseline * NEL_baseline * (1 + NEL_vary))
      CP := (DM_baseline * 0.15, DM_baseline * 0.20)
      NDF := (DM_baseline * 0.25, DM_baseline * 0.33)
      STARCH := (DM_baseline * 0.22, DM_baseline * 0.30)
      FAT := (DM_baseline * 0.00, DM_baseline * 0.07) }

/-- One herd member, with the columns the grouping code reads
(`ID`, `DIM`, `NEL`, `MILK`, `DMI`). -/
structure Cow where
  id : Nat
  DIM : ℚ
  NEL : ℚ
  MILK : ℚ
  DMI : ℚ
deriving DecidableEq

/-- Python slice `l[a:b]` (as used by `DataFrame.iloc[a:b]`). -/
def pySlice (l : List Cow) (a b : Nat) : List Cow := (l.drop a).take (b - a)

/-- Embedding of `Utility._split_into_n_groups` (`util.py` lines 191-197):
`n` contiguous slices of the already-sorted sequence with integer-division
boundaries `i * size // n`. -/
def split_into_n_groups (sorted_df : List Cow) (n : Nat) : List (List Cow) :=
  (List.range n).map
    (fun i => pySlice sorted_df (i * sorted_df.length / n) ((i + 1) * sorted_df.length / n))

/-- Embedding of pandas `DataFrame.sort_values` on one numeric key, ascending.
The source leaves `sort_values` at its default `kind` (quicksort), which fixes
the ascending order of keys but not the relative order of tied rows; this
embedding uses a concrete comparison sort, and no claim settled against it
depends on the order of ties. -/
def sortValuesBy (key : Cow → ℚ) (l : List Cow) : List Cow :=
  List.insertionSort (fun a b => key a ≤ key b) l

/-- Embedding of `Utility.two_group_by_dim` (`util.py` line 199-201). -/
def two_group_by_dim (cow_df : List Cow) : List (List Cow) :=
  split_into_n_groups (sortValuesBy Cow.DIM cow_df) 2

/-- Embedding of `Utility.two_group_by_nel`. -/
def two_group_by_nel (cow_df : List Cow) : List (List Cow) :=
  split_into_n_groups (sortValuesBy Cow.NEL cow_df) 2

/-- Embedding of `Utility.two_group_by_my`. -/
def two_group_by_my (cow_df : List Cow) : List (List Cow) :=
  split_into_n_groups (sortValuesBy Cow.MILK cow_df) 2

/-- Embedding of `Utility.three_group_by_dim`. -/
def three_group_by_dim (cow_df : List Cow) : List (List Cow) :=
  split_into_n_groups (sortValuesBy Cow.DIM cow_df) 3

/-- Embedding of `Utility.three_group_by_nel`. -/
def three_group_by_nel (cow_df : List Cow) : List (List Cow) :=
  split_into_n_groups (sortValuesBy Cow.NEL cow_df) 3

/-- Embedding of `Utility.three_group_by_my`. -/
def three_group_by_my (cow_df : List Cow) : List (List Cow) :=
  split_into_n_groups (sortValuesBy Cow.MILK cow_df) 3

/-- Embedding of the validation and grouping phase of `group_and_optimize`
(`run_diet_opt.py` lines 350-383): normalize the criterion, validate
`group_num` and (only when `group_num > 1`) the criterion, then dispatch to
the `util.py` grouping helpers.  The per-group optimization that follows the
grouping phase is modelled separately. -/
def groupAndOptimizeGroups (group_num : Nat) (criteria : String) (cow_df : List Cow) :
    Except DietError (List (List Cow)) :=
  let crit := pyLower (pyStrip criteria)
  if ¬(group_num = 1 ∨ group_num = 2 ∨ group_num = 3) then
    Except.error (DietError.invalidInput "group_num must be 1, 2, or 3.")
  else if 1 < group_num ∧ ¬(crit = "dim" ∨ crit = "nel" ∨ crit = "milk") then
    Except.error (DietError.invalidInput "criteria must be one of: dim, nel, milk.")
  else if group_num = 1 then Except.ok [cow_df]
  else if group_num = 2 then
    if crit = "dim" then Except.ok (two_group_by_dim cow_df)
    else if crit = "nel" then Except.ok (two_group_by_nel cow_df)
    else Except.ok (two_group_by_my cow_df)
  else
    if crit = "dim" then Except.ok (three_group_by_dim cow_df)
    else if crit = "nel" then Except.ok (three_group_by_nel cow_df)
    else Except.ok (three_group_by_my cow_df)

/-- Embedding of the grouping dispatch of `group_and_opt` (`main.py` lines
228-253): no normalization; the criterion is only inspected inside the
`group_num = 2` and `group_num = 3` branches. -/
def groupAndOptGroups (group_num : Nat) (criteria : String) (cow_df : List Cow) :
    Except DietError (List (List Cow)) :=
  if group_num = 1 then Except.ok [cow_df]
  else if group_num = 2 then
    if criteria = "dim" then Except.ok (two_group_by_dim cow_df)
    else if criteria = "nel" then Except.ok (two_group_by_nel cow_df)
    else if criteria = "milk" then Except.ok (two_group_by_my cow_df)
    else Except.error (DietError.invalidInput "Invalid criteria. Use dim, nel, or milk.")
  else if group_num = 3 then
    if criteria = "dim" then Except.ok (three_group_by_dim cow_df)
    else if criteria = "nel" then Except.ok (three_group_by_nel cow_df)
    else if criteria = "milk" then Except.ok (three_group_by_my cow_df)
    else Except.error (DietError.invalidInput "Invalid criteria. Use dim, nel, or milk.")
  else Except.error (DietError.invalidInput "Invalid group number. Use 1, 2, or 3.")

/-- One feed item of the crop library, with the columns `optimize_diet` reads
(`DM` as-fed fraction and the per-DM nutrient fractions, all 0-1 after the
loader's percent-to-fraction conversion). -/
structure Ingredient where
  name : String
  DM : ℚ
  NEL : ℚ
  CP : ℚ
  NDF : ℚ
  STARCH : ℚ
  FAT : ℚ
  TFA : ℚ
  DNDF : ℚ
deriving DecidableEq

/-- Column lookup `crop_nutrient_table.loc[c, n]` for the nutrient columns the
model builder indexes by name. -/
def nutrientOf (c : Ingredient) : String → ℚ
  | "NEL" => c.NEL
  | "CP" => c.CP
  | "NDF" => c.NDF
  | "STARCH" => c.STARCH
  | "FAT" => c.FAT
  | "TFA" => c.TFA
  | "DNDF" => c.DNDF
  | _ => 0

/-- The nutrient list `OTHER_NUTRIENTS` of `run_diet_opt.py` line 32. -/
def OTHER_NUTRIENTS : List String := ["NEL", "CP", "NDF", "STARCH", "FAT"]

/-- The two hand-picked forage ingredient names (`run_diet_opt.py` line 177). -/
def forageIngredients : List String := ["Corn silage", "Legume silage, mid maturity"]

/-- Lookup in the inclusion-limits table (`crop_min_max_table.loc[name, ...]`). -/
def lookupMinMax (tbl : List (String × ℚ × ℚ)) (name : String) : Option (ℚ × ℚ) :=
  (tbl.find? (fun r => r.1 == name)).map (fun r => r.2)

/-- Lookup in the price table (`feed_price_table.loc[name, "price ($/kg)"]`). -/
def lookupPrice (tbl : List (String × ℚ)) (name : String) : Option ℚ :=
  (tbl.find? (fun r => r.1 == name)).map (fun r => r.2)

/-- Lookup of one ingredient's column value by ingredient name, defaulting to 0;
the model builder only evaluates it after verifying the ingredient exists. -/
def cropColumn (crops : List Ingredient) (name : String) (f : Ingredient → ℚ) : ℚ :=
  ((crops.find? (fun c => c.name == name)).map f).getD 0

/-- Herd-total dry matter `Σ_c feed(c) · DM(c)` (numerator of `dmi_calc`). -/
def herdDM (crops : List Ingredient) (feed : String → ℚ) : ℚ :=
  (crops.map (fun c => feed c.name * c.DM)).sum

/-- Herd-total for one nutrient: `Σ_c feed(c) · DM(c) · nutrient(c)` (numerator
of the `*_calc` constraints). -/
def herdNutrientTotal (crops : List Ingredient) (feed : String → ℚ) (n : String) : ℚ :=
  (crops.map (fun c => feed c.name * c.DM * nutrientOf c n)).sum

/-- Herd-total cost `Σ_c feed(c) · price(c)` (numerator of `cost_calc`). -/
def herdCost (crops : List Ingredient) (price : List (String × ℚ)) (feed : String → ℚ) : ℚ :=
  (crops.map (fun c => feed c.name * (lookupPrice price c.name).getD 0)).sum

/-- The ration model for one cohort, as assembled by `optimize_diet` after all
of its validation has passed: the data every constraint and the objective are
built from.  `eqn` and `obj` are stored in their normalized (upper / lower
case) form. -/
structure DietModel where
  animalCount : ℚ
  req : ReqTable
  crops : List Ingredient
  priceTable : List (String × ℚ)
  minMaxTable : List (String × ℚ × ℚ)
  eqn : String
  obj : String
  methaneWeight : ℚ
deriving DecidableEq

/-- First forage name absent from the crop library, if any (the loop of
`run_diet_opt.py` lines 178-183 raises at the first missing one). -/
def firstMissingForage (crops : List Ingredient) : Option String :=
  forageIngredients.find? (fun ing => !(crops.any (fun c => c.name == ing)))

/-- Embedding of the validation half of `optimize_diet` (`run_diet_opt.py`
lines 84-255): the checks are performed in source order and the first failing
one produces the error; when all pass, the assembled model data is returned.
The source's missing-column checks (crop columns, price column, requirement
rows) cannot fail in this embedding because columns are record fields. -/
def buildDietModel (animal_count : ℚ) (req : ReqTable) (crops : List Ingredient)
    (price : List (String × ℚ)) (minmax : List (String × ℚ × ℚ))
    (methane_eqn obj : String) (methane_weight : ℚ) : Except DietError DietModel :=
  if animal_count ≤ 0 then
    Except.error (DietError.invalidInput "animal_count must be positive")
  else if ¬(pyUpper (pyStrip methane_eqn) = "ELLIS" ∨ pyUpper (pyStrip methane_eqn) = "NASEM") then
    Except.error (DietError.invalidConfiguration "Invalid methane_eqn. Use Ellis or NASEM.")
  else if ¬(pyLower (pyStrip obj) = "methane" ∨ pyLower (pyStrip obj) = "cost" ∨
      pyLower (pyStrip obj) = "both") then
    Except.error (DietError.invalidConfiguration "Invalid obj. Use methane, cost, or both.")
  else
    match firstMissingForage crops with
    | some ing => Except.error (DietError.missingIngredient ing)
    | none =>
      match crops.find? (fun c => (lookupMinMax minmax c.name).isNone) with
      | some c => Except.error (DietError.missingIngredient c.name)
      | none =>
        match crops.find? (fun c => (lookupPrice price c.name).isNone) with
        | some c => Except.error (DietError.missingIngredient c.name)
        | none =>
          Except.ok
            { animalCount := animal_count, req := req, crops := crops,
              priceTable := price, minMaxTable := minmax,
              eqn := pyUpper (pyStrip methane_eqn), obj := pyLower (pyStrip obj),
              methaneWeight := methane_weight }

/-- A value for every decision variable of the ration model (the solver's
output): one herd-total as-fed quantity per ingredient name, the scalar
intermediates, and one scalar per tracked nutrient. -/
structure Assignment where
  feed : String → ℚ
  nutrient : String → ℚ
  dmi : ℚ
  nel : ℚ
  me : ℚ
  cp : ℚ
  ndf : ℚ
  tfa : ℚ
  dndf : ℚ
  methane : ℚ
  cost : ℚ

/-- Per-cow dry matter of the two designated forage ingredients (left side of
`forage_min` / `forage_max`). -/
def forageDMperCow (m : DietModel) (a : Assignment) : ℚ :=
  (a.feed "Corn silage" * cropColumn m.crops "Corn silage" Ingredient.DM +
    a.feed "Legume silage, mid maturity" *
      cropColumn m.crops "Legume silage, mid maturity" Ingredient.DM) / m.animalCount

/-- An assignment satisfies the ration model: the conjunction of every
`addVar` lower bound and every `addConstr` of `optimize_diet`
(`run_diet_opt.py` lines 122-269), transcribed in source order.  The
inclusion-limit pairs are read with a default that is never reached, because
`buildDietModel` has already verified every lookup succeeds. -/
def satisfies (m : DietModel) (a : Assignment) : Prop :=
  (0 ≤ a.dmi ∧ (∀ c ∈ m.crops, 0 ≤ a.feed c.name) ∧ 0 ≤ a.nel ∧ 0 ≤ a.me ∧
    0 ≤ a.cp ∧ 0 ≤ a.ndf ∧ 0 ≤ a.tfa ∧ 0 ≤ a.dndf ∧ 0 ≤ a.methane ∧ 0 ≤ a.cost ∧
    (∀ n ∈ OTHER_NUTRIENTS, 0 ≤ a.nutrient n)) ∧
  a.dmi = herdDM m.crops a.feed / m.animalCount ∧
  (reqOf m.req "DM").1 ≤ a.dmi ∧ a.dmi ≤ (reqOf m.req "DM").2 ∧
  (∀ n ∈ OTHER_NUTRIENTS,
    a.nutrient n = herdNutrientTotal m.crops a.feed n / m.animalCount ∧
    (reqOf m.req n).1 ≤ a.nutrient n ∧ a.nutrient n ≤ (reqOf m.req n).2) ∧
  0.4 * a.dmi ≤ forageDMperCow m a ∧ forageDMperCow m a ≤ 0.6 * a.dmi ∧
  (∀ c ∈ m.crops,
    ((lookupMinMax m.minMaxTable c.name).getD (0, 0)).1 ≤ a.feed c.name / m.animalCount ∧
    a.feed c.name / m.animalCount ≤ ((lookupMinMax m.minMaxTable c.name).getD (0, 0)).2) ∧
  a.feed "Legume silage, mid maturity" ≤ a.feed "Corn silage" ∧
  a.feed "Corn silage" ≤ 2 * a.feed "Legume silage, mid maturity" ∧
  a.nel = a.nutrient "NEL" ∧
  a.me = 1.818 * a.nel - 0.2319 ∧
  a.cp = a.nutrient "CP" ∧
  a.ndf = a.nutrient "NDF" ∧
  a.tfa = herdNutrientTotal m.crops a.feed "TFA" / m.animalCount ∧
  a.dndf = herdNutrientTotal m.crops a.feed "DNDF" / m.animalCount ∧
  a.cost = herdCost m.crops m.priceTable a.feed / m.animalCount ∧
  (m.eqn = "ELLIS" →
    a.methane = (4.41 + 0.0224 * 4.184 * a.me + 0.98 * a.ndf) / 55.65) ∧
  (m.eqn ≠ "ELLIS" →
    a.methane = (0.294 * a.dmi - 0.347 * (a.tfa / a.dmi) * 100 +
      0.0409 * (a.dndf / a.dmi) * 100) * 4.184 / 55.65)

/-- Objective expression selected by `obj` (`run_diet_opt.py` lines 274-280). -/
def objectiveValue (m : DietModel) (a : Assignment) : ℚ :=
  if m.obj = "methane" then a.methane
  else if m.obj = "cost" then a.cost
  else a.cost + m.methaneWeight * a.methane

/-- Modelled from the spec: the Ellis methane identity written over the
per-cow-per-day totals `Sum_c(quantity_c * DM_c * fraction_c) / cohortSize`,
with `me = 1.818 * nel - 0.2319`, exactly as the spec states it (spec section
4.3).  Compared against the constraint the model builder emits. -/
def spec_ellis_methane (crops : List Ingredient) (feed : String → ℚ) (cohortSize : ℚ) : ℚ :=
  (4.41 +
    0.0224 * 4.184 * (1.818 * (herdNutrientTotal crops feed "NEL" / cohortSize) - 0.2319) +
    0.98 * (herdNutrientTotal crops feed "NDF" / cohortSize)) / 55.65

/-- Modelled from the spec: the NASEM methane identity written over the
per-cow-per-day totals, exactly as the spec states it (spec section 4.3).
Compared against the constraint the model builder emits. -/
def spec_nasem_methane (crops : List Ingredient) (feed : String → ℚ) (cohortSize : ℚ) : ℚ :=
  (0.294 * (herdDM crops feed / cohortSize) -
    0.347 * ((herdNutrientTotal crops feed "TFA" / cohortSize) /
      (herdDM crops feed / cohortSize)) * 100 +
    0.0409 * ((herdNutrientTotal crops feed "DNDF" / cohortSize) /
      (herdDM crops feed / cohortSize)) * 100) * 4.184 / 55.65

/-- The ingredient table of `optimize_diet` (`run_diet_opt.py` lines 292-297):
rows for the ingredients whose per-cow as-fed amount exceeds 0.01, value the
per-cow amount, sorted by descending amount.  The source's unstable descending
`sort_values` fixes the order only up to ties. -/
def byAmountDesc (x y : String × ℚ) : Prop := y.2 ≤ x.2

instance : DecidableRel byAmountDesc :=
  fun x y => inferInstanceAs (Decidable (y.2 ≤ x.2))

instance : IsTotal (String × ℚ) byAmountDesc :=
  ⟨fun x y => le_total y.2 x.2⟩

instance : IsTrans (String × ℚ) byAmountDesc :=
  ⟨fun _ _ _ hab hbc => le_trans hbc hab⟩

/-- Embedding of the feed-table construction of `optimize_diet`
(`run_diet_opt.py` lines 292-297). -/
def feedTableRun (crops : List Ingredient) (animal_count : ℚ) (feed : String → ℚ) :
    List (String × ℚ) :=
  List.insertionSort byAmountDesc
    ((crops.filter (fun c => feed c.name / animal_count > 0.01)).map
      (fun c => (c.name, feed c.name / animal_count)))

/-- Embedding of the feed-table construction of `optimize` (`main.py` lines
199-204): the 0.01 threshold is applied to the herd-total quantity
`feed_on_farm[c].X`, and the rows stay in crop-library order (no sort). -/
def feedTableMain (crops : List Ingredient) (animal_count : ℚ) (feed : String → ℚ) :
    List (String × ℚ) :=
  (crops.filter (fun c => feed c.name > 0.01)).map
    (fun c => (c.name, feed c.name / animal_count))

/-- The summary table of `optimize_diet` (`run_diet_opt.py` lines 299-311):
quantities whose denominator can vanish are guarded and reported as a
not-a-number sentinel, embedded as `none`. -/
structure RunSummary where
  cost : ℚ
  methane_g : ℚ
  dmi : ℚ
  dmPct : Option ℚ
  nelPerKgDM : Option ℚ
  cpPct : Option ℚ
  ndfPct : Option ℚ
  starchPct : Option ℚ
  fatPct : Option ℚ
  tfaPct : Option ℚ
  dndfPct : Option ℚ
deriving DecidableEq

/-- Embedding of the summary construction of `optimize_diet` (`run_diet_opt.py`
lines 290-311). -/
def runSummary (crops : List Ingredient) (animal_count : ℚ) (a : Assignment) : RunSummary :=
  let total_as_fed := (crops.map (fun c => a.feed c.name)).sum / animal_count
  { cost := a.cost
    methane_g := a.methane * 1000
    dmi := a.dmi
    dmPct := if total_as_fed > 0 then some (a.dmi / total_as_fed * 100) else none
    nelPerKgDM := if a.dmi > 0 then some (a.nel / a.dmi) else none
    cpPct := if a.dmi > 0 then some (a.nutrient "CP" / a.dmi * 100) else none
    ndfPct := if a.dmi > 0 then some (a.nutrient "NDF" / a.dmi * 100) else none
    starchPct := if a.dmi > 0 then some (a.nutrient "STARCH" / a.dmi * 100) else none
    fatPct := if a.dmi > 0 then some (a.nutrient "FAT" / a.dmi * 100) else none
    tfaPct := if a.dmi > 0 then some (a.tfa / a.dmi * 100) else none
    dndfPct := if a.dmi > 0 then some (a.dndf / a.dmi * 100) else none }

/-- Python division, which raises `ZeroDivisionError` on a zero denominator. -/
def safeDiv (x y : ℚ) : Except String ℚ :=
  if y = 0 then Except.error "ZeroDivisionError" else Except.ok (x / y)

/-- Embedding of the summary-value construction of `optimize` (`main.py` lines
199-211): the divisions are unguarded, so a zero denominator raises; the list
is evaluated left to right as in the source. -/
def mainSummaryValues (crops : List Ingredient) (animal_count : ℚ) (a : Assignment) :
    Except String (List ℚ) := do
  let total_as_fed := (crops.map (fun c => a.feed c.name)).sum / animal_count
  let dmPct ← safeDiv a.dmi total_as_fed
  let nelPerKg ← safeDiv a.nel a.dmi
  let cpPct ← safeDiv (a.nutrient "CP") a.dmi
  let ndfPct ← safeDiv (a.nutrient "NDF") a.dmi
  let starchPct ← safeDiv (a.nutrient "STARCH") a.dmi
  let fatPct ← safeDiv (a.nutrient "FAT") a.dmi
  let tfaPct ← safeDiv a.tfa a.dmi
  let dndfPct ← safeDiv a.dndf a.dmi
  Except.ok [a.cost, a.methane * 1000, a.dmi, dmPct * 100, nelPerKg,
    cpPct * 100, ndfPct * 100, starchPct * 100, fatPct * 100, tfaPct * 100, dndfPct * 100]

/-- Embedding of the full `optimize_diet` pipeline shape: build the model
(validation included), hand it to the external solver, and extract the result
tables from the returned assignment; a solver that does not return an optimal
or suboptimal assignment is a `solverFailure` (`run_diet_opt.py` lines
283-314). -/
def optimizeDietRun (solve : DietModel → Option Assignment) (animal_count : ℚ)
    (req : ReqTable) (crops : List Ingredient) (price : List (String × ℚ))
    (minmax : List (String × ℚ × ℚ)) (methane_eqn obj : String) (methane_weight : ℚ) :
    Except DietError (RunSummary × List (String × ℚ)) := do
  let mdl ← buildDietModel animal_count req crops price minmax methane_eqn obj methane_weight
  match solve mdl with
  | none => Except.error (DietError.solverFailure "Optimization ended with non-optimal status.")
  | some a => Except.ok (runSummary mdl.crops mdl.animalCount a,
      feedTableRun mdl.crops mdl.animalCount a.feed)

/-! Witness data: a tiny concrete herd, crop library, price and inclusion
tables, and a concrete solved assignment, used to instantiate the
hypothesis-bearing theorems below at concrete inputs. -/

/-- Concrete corn silage ingredient for witnesses. -/
def wCorn : Ingredient := ⟨"Corn silage", 1, 1, 1, 1, 1, 1, 1, 1⟩

/-- Concrete legume silage ingredient for witnesses. -/
def wLegume : Ingredient := ⟨"Legume silage, mid maturity", 1, 1, 1, 1, 1, 1, 1, 1⟩

/-- Concrete non-forage ingredient for witnesses. -/
def wHay : Ingredient := ⟨"Hay", 2, 1, 1, 1, 1, 1, 1, 1⟩

/-- Concrete crop library for witnesses. -/
def wCrops : List Ingredient := [wCorn, wLegume, wHay]

/-- Concrete crop library with the corn silage forage missing. -/
def wCropsNoCorn : List Ingredient := [wLegume, wHay]

/-- Concrete wide requirement table for witnesses. -/
def wReq : ReqTable := ⟨(0, 100), (0, 100), (0, 100), (0, 100), (0, 100), (0, 100)⟩

/-- Concrete price table for witnesses. -/
def wPrice : List (String × ℚ) :=
  [("Corn silage", 1), ("Legume silage, mid maturity", 1), ("Hay", 1)]

/-- Concrete inclusion-limits table for witnesses. -/
def wMinMax : List (String × ℚ × ℚ) :=
  [("Corn silage", 0, 100), ("Legume silage, mid maturity", 0, 100), ("Hay", 0, 100)]

/-- The model `buildDietModel` assembles from the witness tables with the
Ellis equation and cost objective. -/
def wModel : DietModel := ⟨1, wReq, wCrops, wPrice, wMinMax, "ELLIS", "cost", 1⟩

/-- A concrete assignment satisfying every constraint of `wModel`. -/
def wAssign : Assignment :=
  { feed := fun _ => 1
    nutrient := fun _ => 4
    dmi := 4
    nel := 4
    me := 1.818 * 4 - 0.2319
    cp := 4
    ndf := 4
    tfa := 4
    dndf := 4
    methane := (4.41 + 0.0224 * 4.184 * (1.818 * 4 - 0.2319) + 0.98 * 4) / 55.65
    cost := 3 }

/-- A degenerate assignment with `dmi = 0` but a nonzero total as-fed sum. -/
def czAssign : Assignment :=
  { feed := fun _ => 1
    nutrient := fun _ => 0
    dmi := 0
    nel := 1
    me := 0
    cp := 0
    ndf := 0
    tfa := 1
    dndf := 0
    methane := 0
    cost := 0 }

/-- Concrete five-cow herd for the partitioning witness. -/
def wHerd : List Cow :=
  [⟨1, 10, 1, 1, 1⟩, ⟨2, 20, 1, 1, 1⟩, ⟨3, 30, 1, 1, 1⟩, ⟨4, 40, 1, 1, 1⟩, ⟨5, 50, 1, 1, 1⟩]

/-! Helper lemmas about Python slices and the splitter. -/

/-- Length of a Python slice whose bounds are in range. -/
theorem pySlice_length (l : List Cow) (a b : Nat) (hab : a ≤ b) (hb : b ≤ l.length) :
    (pySlice l a b).length = b - a := by
  simp only [pySlice, List.length_take, List.length_drop]
  omega

/-- Adjacent Python slices concatenate to the enclosing slice. -/
theorem pySlice_append (l : List Cow) (a b c : Nat) (hab : a ≤ b) (hbc : b ≤ c) :
    pySlice l a b ++ pySlice l b c = pySlice l a c := by
  unfold pySlice
  have h1 : l.drop b = (l.drop a).drop (b - a) := by
    rw [List.drop_drop]
    congr 1
    omega
  have h2 : c - a = (b - a) + (c - b) := by omega
  rw [h1, h2, List.take_add]

/-- The slice over the whole index range is the whole list. -/
theorem pySlice_full (l : List Cow) : pySlice l 0 l.length = l := by
  simp [pySlice]

/-- Flattening consecutive slices along a monotone boundary function yields
the slice between the outermost boundaries. -/
theorem flatten_pySlices (l : List Cow) (f : Nat → Nat) (hmono : ∀ i, f i ≤ f (i + 1)) :
    ∀ n, ((List.range n).map (fun i => pySlice l (f i) (f (i + 1)))).flatten =
      pySlice l (f 0) (f n) := by
  intro n
  induction n with
  | zero => simp [pySlice]
  | succ m ih =>
    rw [List.range_succ, List.map_append, List.flatten_append, ih]
    simp only [List.map_cons, List.map_nil, List.flatten_cons, List.flatten_nil,
      List.append_nil]
    exact pySlice_append l (f 0) (f m) (f (m + 1))
      (monotone_nat_of_le_succ hmono (Nat.zero_le m)) (hmono m)

/-- The splitter's boundary function is monotone in the slice index. -/
theorem splitBound_mono (N n : Nat) : ∀ i, i * N / n ≤ (i + 1) * N / n := fun i =>
  Nat.div_le_div_right (Nat.mul_le_mul_right _ (Nat.le_succ i))

/-- The `n` slices of `split_into_n_groups` flatten back to the input list. -/
theorem split_flatten (s : List Cow) (n : Nat) (hn : 0 < n) :
    (split_into_n_groups s n).flatten = s := by
  unfold split_into_n_groups
  rw [flatten_pySlices s (fun i => i * s.length / n) (splitBound_mono s.length n) n]
  rw [Nat.zero_mul, Nat.zero_div, Nat.mul_div_cancel_left _ hn]
  exact pySlice_full s

/-- Indexing the splitter's output recovers the corresponding slice. -/
theorem split_getD (s : List Cow) (n i : Nat) (hi : i < n) :
    (split_into_n_groups s n).getD i [] =
      pySlice s (i * s.length / n) ((i + 1) * s.length / n) := by
  unfold split_into_n_groups
  rw [List.getD_eq_getElem?_getD, List.getElem?_map, List.getElem?_range hi]
  rfl

/-- Size of each slice of the splitter's output. -/
theorem split_length_eq (s : List Cow) (n i : Nat) (hn : 0 < n) (hi : i < n) :
    ((split_into_n_groups s n).getD i []).length =
      (i + 1) * s.length / n - i * s.length / n := by
  rw [split_getD s n i hi]
  refine pySlice_length s _ _ (splitBound_mono s.length n i) ?_
  calc (i + 1) * s.length / n ≤ n * s.length / n :=
        Nat.div_le_div_right (Nat.mul_le_mul_right _ hi)
    _ = s.length := Nat.mul_div_cancel_left _ hn

/-- Claim C3: for every herd of `N > 0` cows and every `groupCount` in
`{1,2,3}`, the partitioner returns `groupCount` contiguous slices of the
sorted herd (any reordering of the herd) with boundaries `⌊i·N/g⌋`; the slice
sizes sum to `N`, the slices flatten back to the sorted herd, the multiset
(and hence set) of member identifiers equals the original herd's, and later
slices are at least as large as earlier ones (they absorb the remainder). -/
theorem split_into_n_groups_partition (herd s : List Cow) (g : Nat)
    (hg : g = 1 ∨ g = 2 ∨ g = 3) (hperm : s.Perm herd) (hpos : 0 < herd.length) :
    (split_into_n_groups s g).length = g ∧
    ((split_into_n_groups s g).map List.length).sum = herd.length ∧
    (∀ i, i < g → (split_into_n_groups s g).getD i [] =
      pySlice s (i * herd.length / g) ((i + 1) * herd.length / g)) ∧
    (split_into_n_groups s g).flatten = s ∧
    List.Perm ((split_into_n_groups s g).flatten.map Cow.id) (herd.map Cow.id) ∧
    (∀ x, (∃ grp ∈ split_into_n_groups s g, x ∈ grp.map Cow.id) ↔ x ∈ herd.map Cow.id) ∧
    (∀ i j, i ≤ j → j < g →
      ((split_into_n_groups s g).getD i []).length ≤
        ((split_into_n_groups s g).getD j []).length) := by
  have hlen : s.length = herd.length := hperm.length_eq
  have hg1 : 0 < g := by rcases hg with rfl | rfl | rfl <;> norm_num
  have hflat := split_flatten s g hg1
  refine ⟨?_, ?_, ?_, hflat, ?_, ?_, ?_⟩
  · simp [split_into_n_groups]
  · rw [← List.length_flatten, hflat, hlen]
  · intro i hi
    rw [split_getD s g i hi, hlen]
  · rw [hflat]
    exact hperm.map Cow.id
  · intro x
    constructor
    · rintro ⟨grp, hgrp, hx⟩
      obtain ⟨c, hc, rfl⟩ := List.mem_map.mp hx
      have hcs : c ∈ s := by
        rw [← hflat]
        exact List.mem_flatten.mpr ⟨grp, hgrp, hc⟩
      exact List.mem_map.mpr ⟨c, hperm.mem_iff.mp hcs, rfl⟩
    · intro hx
      obtain ⟨c, hc, rfl⟩ := List.mem_map.mp hx
      have hcs : c ∈ (split_into_n_groups s g).flatten := by
        rw [hflat]
        exact hperm.mem_iff.mpr hc
      obtain ⟨grp, hgrp, hcg⟩ := List.mem_flatten.mp hcs
      exact ⟨grp, hgrp, List.mem_map.mpr ⟨c, hcg, rfl⟩⟩
  · intro i j hij hj
    have hi : i < g := Nat.lt_of_le_of_lt hij hj
    rw [split_length_eq s g i hg1 hi, split_length_eq s g j hg1 hj]
    rcases hg with rfl | rfl | rfl
    · interval_cases i <;> interval_cases j <;> omega
    · interval_cases i <;> interval_cases j <;> omega
    · interval_cases i <;> interval_cases j <;> omega

/-- Witness for C3 at a concrete five-cow herd split into three groups. -/
theorem split_into_n_groups_partition_witness :
    ((split_into_n_groups wHerd 3).map List.length).sum = wHerd.length ∧
    (split_into_n_groups wHerd 3).flatten = wHerd :=
  have h := split_into_n_groups_partition wHerd wHerd 3 (by norm_num)
    (List.Perm.refl wHerd) (by decide)
  ⟨h.2.1, h.2.2.2.1⟩

/-- Claim C2: for every baseline and variation input, the requirement table
has the DM row `[DM·(1−v), DM·(1+v)]`, the NEL row
`[DM·NEL·(1−w), DM·NEL·(1+w)]`, and CP, NDF, STARCH, FAT rows equal to
`DM_baseline` scaled by the fixed fractional ranges 0.15-0.20, 0.25-0.33,
0.22-0.30 and 0.00-0.07; in particular the spec's Scenario 2 values hold. -/
theorem construct_req_table_rows (DMb NELb DMv NELv : ℚ) :
    construct_nutritional_req_table DMb NELb DMv NELv = Except.ok
      { DM := (DMb * (1 - DMv), DMb * (1 + DMv))
        NEL := (DMb * NELb * (1 - NELv), DMb * NELb * (1 + NELv))
        CP := (DMb * 0.15, DMb * 0.20)
        NDF := (DMb * 0.25, DMb * 0.33)
        STARCH := (DMb * 0.22, DMb * 0.30)
        FAT := (DMb * 0.00, DMb * 0.07) } ∧
    construct_nutritional_req_table 25 1.7 0.02 0.02 = Except.ok
      { DM := (24.5, 25.5)
        NEL := (41.65, 43.35)
        CP := (3.75, 5)
        NDF := (6.25, 8.25)
        STARCH := (5.5, 7.5)
        FAT := (0, 1.75) } := by
  constructor
  · rfl
  · unfold construct_nutritional_req_table
    norm_num

/-- Counterexample to claim C5: at the non-positive baseline `-1` (and at the
out-of-range variation there is likewise no error) the requirement-table
construction returns normally instead of failing with an InvalidInput
error. -/
theorem construct_req_table_accepts_invalid :
    succeeds (construct_nutritional_req_table (-1) 1.7 2 0.02) = true ∧
    ((-1 : ℚ) ≤ 0 ∧ ¬(0 ≤ (2 : ℚ) ∧ (2 : ℚ) < 1)) := by
  constructor
  · rfl
  · norm_num

/-- Claim C5 as amended: the requirement-table construction performs no input
validation at all; it returns a table for every input, including non-positive
baselines and variations outside `[0, 1)`. -/
theorem construct_req_table_never_fails (DMb NELb DMv NELv : ℚ) :
    succeeds (construct_nutritional_req_table DMb NELb DMv NELv) = true := rfl

/-- Counterexample to claim C9: the grouping phase accepts an empty herd and
returns one empty cohort instead of failing with an InvalidInput error. -/
theorem empty_herd_not_rejected :
    groupAndOptimizeGroups 1 "dim" [] = Except.ok [[]] := rfl

/-- Claim C9 as amended: the grouping phase fails with an InvalidInput error
exactly when `group_num ∉ {1,2,3}` or (`group_num > 1` and the normalized
criterion is unrecognized); the population size is never validated, so an
empty herd passes the grouping phase (its failure surfaces only downstream,
when the per-group statistics take a percentile of empty data). -/
theorem group_validation_characterization (g : Nat) (crit : String) (cows : List Cow) :
    (∃ msg, groupAndOptimizeGroups g crit cows = Except.error (DietError.invalidInput msg)) ↔
      (¬(g = 1 ∨ g = 2 ∨ g = 3) ∨
        (1 < g ∧ ¬(pyLower (pyStrip crit) = "dim" ∨ pyLower (pyStrip crit) = "nel" ∨
          pyLower (pyStrip crit) = "milk"))) := by
  unfold groupAndOptimizeGroups
  split_ifs <;> simp_all <;> split_ifs <;> simp_all

/-- Claim C10: with `groupCount = 1` both grouping entry points return the
whole population as the single group without inspecting the criterion, for
every herd and every criterion string. -/
theorem single_group_skips_criterion_validation (crit : String) (cows : List Cow) :
    groupAndOptimizeGroups 1 crit cows = Except.ok [cows] ∧
    groupAndOptGroups 1 crit cows = Except.ok [cows] := by
  constructor
  · unfold groupAndOptimizeGroups
    simp
  · rfl

/-- Binding an error short-circuits in the `Except` monad. -/
theorem exceptBindError {ε α β : Type} (e : ε) (f : α → Except ε β) :
    (Except.error e >>= f) = Except.error e := rfl

/-- Binding a success applies the continuation in the `Except` monad. -/
theorem exceptBindOk {ε α β : Type} (a : α) (f : α → Except ε β) :
    (Except.ok a >>= f) = f a := rfl

/-- Counterexample to claim C4: in `main.py`'s extraction, the 0.01 kg
threshold is applied to the herd-total quantity, so with 10 cows and a
herd-total amount of 0.05 kg every ingredient appears in the table although
its per-cow amount 0.005 kg does not exceed 0.01 kg (and the rows are not
sorted by amount). -/
theorem feed_table_main_threshold_cex :
    feedTableMain wCrops 10 (fun _ => 0.05) =
      [("Corn silage", 0.005), ("Legume silage, mid maturity", 0.005), ("Hay", 0.005)] ∧
    ¬((0.005 : ℚ) > 0.01) := by
  constructor
  · norm_num [feedTableMain, wCrops, wCorn, wLegume, wHay, List.filter_cons]
  · norm_num

/-- Claim C4 as amended: the ingredient table of `run_diet_opt.py`'s
extraction contains exactly the ingredients whose per-cow as-fed amount
exceeds 0.01 kg, each row's value is the herd-total quantity divided by the
cohort size, and the rows are sorted by descending amount; `main.py`'s
extraction instead applies the 0.01 kg threshold to the herd-total quantity
and leaves the rows in crop-library order. -/
theorem feed_table_characterization (crops : List Ingredient) (animal_count : ℚ)
    (feed : String → ℚ) :
    (∀ p : String × ℚ, p ∈ feedTableRun crops animal_count feed ↔
      ∃ c ∈ crops, c.name = p.1 ∧ feed c.name / animal_count > 0.01 ∧
        p.2 = feed c.name / animal_count) ∧
    List.Sorted byAmountDesc (feedTableRun crops animal_count feed) ∧
    (∀ p : String × ℚ, p ∈ feedTableMain crops animal_count feed ↔
      ∃ c ∈ crops, c.name = p.1 ∧ feed c.name > 0.01 ∧
        p.2 = feed c.name / animal_count) := by
  refine ⟨?_, ?_, ?_⟩
  · intro p
    simp only [feedTableRun, List.mem_insertionSort, List.mem_map, List.mem_filter,
      decide_eq_true_eq]
    constructor
    · rintro ⟨c, ⟨hc, hq⟩, rfl⟩
      exact ⟨c, hc, rfl, hq, rfl⟩
    · rintro ⟨c, hc, h1, h2, h3⟩
      obtain ⟨p1, p2⟩ := p
      dsimp at h1 h3
      subst h1
      subst h3
      exact ⟨c, ⟨hc, h2⟩, rfl⟩
  · exact List.sorted_insertionSort byAmountDesc _
  · intro p
    simp only [feedTableMain, List.mem_map, List.mem_filter, decide_eq_true_eq]
    constructor
    · rintro ⟨c, ⟨hc, hq⟩, rfl⟩
      exact ⟨c, hc, rfl, hq, rfl⟩
    · rintro ⟨c, hc, h1, h2, h3⟩
      obtain ⟨p1, p2⟩ := p
      dsimp at h1 h3
      subst h1
      subst h3
      exact ⟨c, ⟨hc, h2⟩, rfl⟩

/-- Counterexample to claim C7: `main.py`'s extraction applied to a solved
assignment with `dmi = 0` (and nonzero total as-fed mass) raises a
ZeroDivisionError instead of reporting a not-a-number sentinel. -/
theorem dmi_zero_crashes_main_extraction :
    succeeds (mainSummaryValues wCrops 1 czAssign) = false ∧ czAssign.dmi = 0 := by
  constructor
  · norm_num [mainSummaryValues, safeDiv, czAssign, wCrops, wCorn, wLegume, wHay,
      succeeds, exceptBindOk, exceptBindError]
  · rfl

/-- Claim C7 as amended: in `run_diet_opt.py`'s extraction, every quantity
divided by `dmi` (NEL per kg DM and the six percent-of-DM nutrient values) is
reported as the not-a-number sentinel when `dmi = 0`, never defaulted to zero
(the dm% row is guarded by its own denominator, the total as-fed mass);
`main.py`'s extraction instead always fails with a division error when
`dmi = 0`. -/
theorem dmi_zero_reported_as_sentinel (crops : List Ingredient) (animal_count : ℚ)
    (a : Assignment) (h : a.dmi = 0) :
    (runSummary crops animal_count a).nelPerKgDM = none ∧
    (runSummary crops animal_count a).cpPct = none ∧
    (runSummary crops animal_count a).ndfPct = none ∧
    (runSummary crops animal_count a).starchPct = none ∧
    (runSummary crops animal_count a).fatPct = none ∧
    (runSummary crops animal_count a).tfaPct = none ∧
    (runSummary crops animal_count a).dndfPct = none ∧
    succeeds (mainSummaryValues crops animal_count a) = false := by
  refine ⟨?_, ?_, ?_, ?_, ?_, ?_, ?_, ?_⟩
  · simp [runSummary, h]
  · simp [runSummary, h]
  · simp [runSummary, h]
  · simp [runSummary, h]
  · simp [runSummary, h]
  · simp [runSummary, h]
  · simp [runSummary, h]
  · by_cases htaf : ((List.map (fun c => a.feed c.name) crops).sum / animal_count) = 0
    · simp [mainSummaryValues, safeDiv, htaf, succeeds, exceptBindOk, exceptBindError]
    · simp [mainSummaryValues, safeDiv, htaf, h, succeeds, exceptBindOk, exceptBindError]

/-- Witness for the amended claim C7 at the concrete degenerate assignment. -/
theorem dmi_zero_reported_as_sentinel_witness :
    (runSummary wCrops 1 czAssign).nelPerKgDM = none ∧
    (runSummary wCrops 1 czAssign).cpPct = none ∧
    (runSummary wCrops 1 czAssign).ndfPct = none ∧
    (runSummary wCrops 1 czAssign).starchPct = none ∧
    (runSummary wCrops 1 czAssign).fatPct = none ∧
    (runSummary wCrops 1 czAssign).tfaPct = none ∧
    (runSummary wCrops 1 czAssign).dndfPct = none ∧
    succeeds (mainSummaryValues wCrops 1 czAssign) = false :=
  dmi_zero_reported_as_sentinel wCrops 1 czAssign rfl

/-- Claim C1: in the ration model built by the optimizer, the methane
identity constraint selected by the methane-equation option is exactly the
spec formula: every assignment satisfying the built model's constraints has,
for option `Ellis`, `methane = (4.41 + 0.0224·4.184·me + 0.98·ndf)/55.65`
with `me = 1.818·nel − 0.2319`, and for option `NASEM`, `methane =
(0.294·dmi − 0.347·(tfa/dmi)·100 + 0.0409·(dndf/dmi)·100)·4.184/55.65`,
where `nel`, `ndf`, `tfa`, `dndf`, `dmi` are the per-cow-per-day totals
`Σ_c(quantity_c·DM_c·fraction_c)/cohortSize`. -/
theorem methane_constraint_matches_spec (animal_count : ℚ) (req : ReqTable)
    (crops : List Ingredient) (price : List (String × ℚ)) (minmax : List (String × ℚ × ℚ))
    (methane_eqn obj : String) (methane_weight : ℚ) (mdl : DietModel) (a : Assignment)
    (hb : buildDietModel animal_count req crops price minmax methane_eqn obj methane_weight =
      Except.ok mdl)
    (hs : satisfies mdl a) :
    (methane_eqn = "Ellis" → a.methane = spec_ellis_methane crops a.feed animal_count) ∧
    (methane_eqn = "NASEM" → a.methane = spec_nasem_methane crops a.feed animal_count) := by
  have hmdl : mdl = ⟨animal_count, req, crops, price, minmax, pyUpper (pyStrip methane_eqn),
      pyLower (pyStrip obj), methane_weight⟩ := by
    unfold buildDietModel at hb
    split_ifs at hb
    repeat' split at hb
    all_goals first
      | exact (Except.ok.inj hb).symm
      | exact absurd hb (by simp)
  have hcrops : mdl.crops = crops := by rw [hmdl]
  have hac : mdl.animalCount = animal_count := by rw [hmdl]
  have heqn : mdl.eqn = pyUpper (pyStrip methane_eqn) := by rw [hmdl]
  obtain ⟨-, hdmi, -, -, hnut, -, -, -, -, -, hnel, hme, -, hndf, htfa, hdndf, -, hellis,
    hnasem⟩ := hs
  rw [hcrops, hac] at hdmi htfa hdndf
  have hNELtot := (hnut "NEL" (by simp [OTHER_NUTRIENTS])).1
  have hNDFtot := (hnut "NDF" (by simp [OTHER_NUTRIENTS])).1
  rw [hcrops, hac] at hNELtot hNDFtot
  constructor
  · intro h
    have he : mdl.eqn = "ELLIS" := by
      rw [heqn, h]
      decide
    rw [hellis he, hme, hnel, hNELtot, hndf, hNDFtot]
    rfl
  · intro h
    have he : mdl.eqn ≠ "ELLIS" := by
      rw [heqn, h]
      decide
    rw [hnasem he, hdmi, htfa, hdndf]
    rfl

/-- Witness for C1: the builder succeeds on the concrete witness tables with
the Ellis option, the concrete assignment satisfies every constraint of the
built model, and its methane value therefore equals the spec's Ellis
formula. -/
theorem methane_constraint_matches_spec_witness :
    wAssign.methane = spec_ellis_methane wCrops wAssign.feed 1 :=
  (methane_constraint_matches_spec 1 wReq wCrops wPrice wMinMax "Ellis" "cost" 1 wModel
    wAssign
    (by
      unfold buildDietModel
      rw [if_neg (by norm_num), if_neg (by decide), if_neg (by decide)]
      rfl)
    (by
      have b1 : (("Corn silage" : String) == "Legume silage, mid maturity") = false := by
        decide
      have b2 : (("Corn silage" : String) == "Hay") = false := by decide
      have b3 : (("Legume silage, mid maturity" : String) == "Hay") = false := by decide
      norm_num [satisfies, wModel, wCrops, wCorn, wLegume, wHay, wReq, wMinMax, wPrice,
        wAssign, OTHER_NUTRIENTS, herdDM, herdNutrientTotal, herdCost, nutrientOf, reqOf,
        forageDMperCow, cropColumn, lookupMinMax, lookupPrice, List.find?,
        List.forall_mem_cons, b1, b2, b3])).1 rfl

/-- Claim C6: when either designated forage ingredient is absent from the
crop library, or any crop-library ingredient is missing from the
inclusion-limits table or the price table, the model builder fails with a
MissingIngredient error, and the whole pipeline therefore returns that error
whatever the solver would do — the solver is never consulted. -/
theorem missing_ingredient_fails_before_solver (animal_count : ℚ) (req : ReqTable)
    (crops : List Ingredient) (price : List (String × ℚ)) (minmax : List (String × ℚ × ℚ))
    (methane_eqn obj : String) (methane_weight : ℚ)
    (hac : 0 < animal_count)
    (heqn : pyUpper (pyStrip methane_eqn) = "ELLIS" ∨ pyUpper (pyStrip methane_eqn) = "NASEM")
    (hobj : pyLower (pyStrip obj) = "methane" ∨ pyLower (pyStrip obj) = "cost" ∨
      pyLower (pyStrip obj) = "both")
    (hmiss : (¬ ∃ c ∈ crops, c.name = "Corn silage") ∨
      (¬ ∃ c ∈ crops, c.name = "Legume silage, mid maturity") ∨
      (∃ c ∈ crops, lookupMinMax minmax c.name = none) ∨
      (∃ c ∈ crops, lookupPrice price c.name = none)) :
    ∃ ing, ∀ solve, optimizeDietRun solve animal_count req crops price minmax
      methane_eqn obj methane_weight = Except.error (DietError.missingIngredient ing) := by
  have hbuild : ∃ ing, buildDietModel animal_count req crops price minmax methane_eqn obj
      methane_weight = Except.error (DietError.missingIngredient ing) := by
    unfold buildDietModel
    rw [if_neg (not_le.mpr hac), if_neg (not_not_intro heqn), if_neg (not_not_intro hobj)]
    cases hf : firstMissingForage crops with
    | some ing => exact ⟨ing, rfl⟩
    | none =>
      cases hm : crops.find? (fun c => (lookupMinMax minmax c.name).isNone) with
      | some c => exact ⟨c.name, rfl⟩
      | none =>
        cases hp : crops.find? (fun c => (lookupPrice price c.name).isNone) with
        | some c => exact ⟨c.name, rfl⟩
        | none =>
          exfalso
          rcases hmiss with h | h | h | h
          · refine h ?_
            have h2 := List.find?_eq_none.mp hf "Corn silage" (by simp [forageIngredients])
            simpa [List.any_eq_true] using h2
          · refine h ?_
            have h2 := List.find?_eq_none.mp hf "Legume silage, mid maturity"
              (by simp [forageIngredients])
            simpa [List.any_eq_true] using h2
          · obtain ⟨c, hc, hnone⟩ := h
            have h2 := List.find?_eq_none.mp hm c hc
            simp [hnone] at h2
          · obtain ⟨c, hc, hnone⟩ := h
            have h2 := List.find?_eq_none.mp hp c hc
            simp [hnone] at h2
  obtain ⟨ing, hing⟩ := hbuild
  refine ⟨ing, fun solve => ?_⟩
  simp only [optimizeDietRun, hing, exceptBindError]

/-- Witness for C6 at a concrete crop library missing the corn silage forage
ingredient (the spec's Scenario 3). -/
theorem missing_ingredient_fails_before_solver_witness :
    ∃ ing, ∀ solve, optimizeDietRun solve 1 wReq wCropsNoCorn wPrice wMinMax "Ellis" "cost" 1 =
      Except.error (DietError.missingIngredient ing) :=
  missing_ingredient_fails_before_solver 1 wReq wCropsNoCorn wPrice wMinMax "Ellis" "cost" 1
    (by norm_num) (Or.inl (by decide)) (Or.inr (Or.inl (by decide)))
    (Or.inl (by decide))

end DietOpt
